import Mathlib

/-!
Verification of the nerve-visuals shared data module and the numeric kernels
of its four scene sketches, as a shallow embedding of the JavaScript source.

Scalar values are modelled over `ℚ` where the code is ordinary arithmetic,
and over `ℝ` where the code manipulates angles (multiples of `π`) or the
exponential function.  JSON values carried by the live feed are modelled by
an explicit `Json` type; the network fetch is modelled synchronously by
passing the settled outcome of the request as a value.
-/

namespace NerveVisuals

open Real

/-- JSON values, as produced by a successful `JSON.parse`. -/
inductive Json where
  | null : Json
  | bool (b : Bool) : Json
  | num (q : ℚ) : Json
  | str (s : String) : Json
  | arr (elems : List Json) : Json
  | obj (fields : List (String × Json)) : Json

/-- Association-list lookup used for JSON object member access.  Objects
produced by `JSON.parse` have distinct keys, so taking the first binding
matches the JavaScript behaviour. -/
def lookupField : List (String × Json) → String → Option Json
  | [], _ => none
  | (k, v) :: rest, key => if k = key then some v else lookupField rest key

/-- JavaScript truthiness of a JSON value (`0`, `""`, `null`, `false` are
falsy; every object and array is truthy). -/
def truthy : Json → Bool
  | .null => false
  | .bool b => b
  | .num q => q != 0
  | .str s => s != ""
  | .arr _ => true
  | .obj _ => true

/-- Truthiness of a possibly absent value (`undefined` is falsy). -/
def truthyOpt : Option Json → Bool
  | none => false
  | some v => truthy v

/-- JavaScript member access `v.key`: throws a TypeError on `null`
(`Except.error`), yields `undefined` (`none`) when the member is absent or
the base is a primitive. -/
def jsMember : Json → String → Except Unit (Option Json)
  | .null, _ => .error ()
  | .obj fs, key => .ok (lookupField fs key)
  | _, _ => .ok none

/-- Member access on the already-validated payload (at its use sites the
base is known to be a non-null object, so access cannot throw); agrees with
`jsMember` there. -/
def jsMemberOk : Json → String → Option Json
  | .obj fs, key => lookupField fs key
  | _, _ => none

/-- JavaScript `v || d` for a possibly absent `v` with default `d`. -/
def jsOr (v : Option Json) (d : Json) : Json :=
  match v with
  | some x => if truthy x then x else d
  | none => d

/-- The five fixed domain scores (`this.domains` / `this.targetDomains`).
Each JavaScript entry is an object `{score: n}`; the entry is modelled by
its numeric score, which is the only member the code reads. -/
structure DomainScores where
  markets : ℚ
  climate : ℚ
  information : ℚ
  socialConflict : ℚ
  supplyChain : ℚ
  deriving DecidableEq, Repr

/-- Truthiness of `this.domains[d]` (and of `this.targetDomains[d]`): the
key set is fixed to the five domain names, and the stored values are
objects, hence truthy. -/
def isDomainKey (key : String) : Bool :=
  key = "Markets" || key = "Climate" || key = "Information" ||
    key = "Social/Conflict" || key = "Supply Chain"

/-- `domainsObject[d] = {score: q}` for a known domain key `d`. -/
def setScore (ds : DomainScores) (key : String) (q : ℚ) : DomainScores :=
  if key = "Markets" then { ds with markets := q }
  else if key = "Climate" then { ds with climate := q }
  else if key = "Information" then { ds with information := q }
  else if key = "Social/Conflict" then { ds with socialConflict := q }
  else if key = "Supply Chain" then { ds with supplyChain := q }
  else ds

/-- The mutable state of `NerveData`.  Constructor fields that are never
reassigned (`API_URL`, `lerpSpeed`, `fetchInterval`, `fetchTimeout`,
`simLevels`) are modelled as constants below. -/
structure NerveState where
  edgeScore : ℚ
  fragility : Json
  momentum : Json
  regime : Json
  domains : DomainScores
  lastUpdate : Option Json
  simMode : Bool
  apiAvailable : Bool
  simLevel : ℕ
  targetEdge : ℚ
  targetDomains : DomainScores
  lastFetch : ℚ

/-- `this.lerpSpeed = 0.02`. -/
def lerpSpeed : ℚ := 0.02

/-- `this.fetchInterval = 60000` (one minute, in milliseconds). -/
def fetchInterval : ℚ := 60000

/-- One preset of the simulation ladder. -/
structure SimLevel where
  edge : ℚ
  regime : String
  fragility : ℚ
  domains : DomainScores
  deriving DecidableEq, Repr

/-- `this.simLevels`: the 8-entry simulation ladder, domain scores in the
order Markets, Climate, Information, Social/Conflict, Supply Chain. -/
def simLevels : List SimLevel :=
  [⟨0.08, "CALM", 0.05, ⟨0.05, 0.03, 0.04, 0.02, 0.1⟩⟩,
   ⟨0.22, "CALM", 0.15, ⟨0.18, 0.08, 0.15, 0.12, 0.25⟩⟩,
   ⟨0.38, "ELEVATED", 0.35, ⟨0.35, 0.15, 0.32, 0.28, 0.45⟩⟩,
   ⟨0.52, "ELEVATED", 0.50, ⟨0.55, 0.25, 0.48, 0.42, 0.55⟩⟩,
   ⟨0.65, "STRESSED", 0.65, ⟨0.72, 0.38, 0.62, 0.58, 0.68⟩⟩,
   ⟨0.78, "STRESSED", 0.78, ⟨0.82, 0.55, 0.75, 0.72, 0.78⟩⟩,
   ⟨0.88, "CRITICAL", 0.88, ⟨0.92, 0.72, 0.88, 0.85, 0.9⟩⟩,
   ⟨0.96, "CRITICAL", 0.95, ⟨0.98, 0.88, 0.95, 0.94, 0.97⟩⟩]

/-- The state built by the `NerveData` constructor (before the background
`tryInitialFetch`). -/
def initialState : NerveState where
  edgeScore := 0.1
  fragility := .num 0
  momentum := .num 0
  regime := .str "CALM"
  domains := ⟨0.01, 0.01, 0.01, 0.01, 0.5⟩
  lastUpdate := none
  simMode := true
  apiAvailable := false
  simLevel := 0
  targetEdge := 0.1
  targetDomains := ⟨0.01, 0.01, 0.01, 0.01, 0.5⟩
  lastFetch := 0

/-- The settled outcome of one attempted HTTP fetch, as far as `fetchLive`
can observe it: network failure or abort, a non-2xx status, a content type
that is not JSON, or a 2xx JSON-typed body whose `JSON.parse` result is
`parsed` (`none` when parsing throws). -/
inductive FetchResponse where
  | netError : FetchResponse
  | httpError : FetchResponse
  | badContentType : FetchResponse
  | body (parsed : Option Json) : FetchResponse

/-- The domain-score loop of `fetchLive`: for each key `d` of
`data.domain_scores`, if `this.domains[d]` is truthy and
`data.domain_scores[d].score` is a number, overwrite `targetDomains[d]`.
A thrown TypeError (member access on a `null` entry, after the truthy key
guard) is `Except.error` carrying the state mutated so far. -/
def applyDomainScores : List (String × Json) → NerveState → Except NerveState NerveState
  | [], s => .ok s
  | (key, v) :: rest, s =>
    if isDomainKey key then
      match jsMember v "score" with
      | .error _ => .error s
      | .ok (some (.num q)) =>
          applyDomainScores rest { s with targetDomains := setScore s.targetDomains key q }
      | .ok _ => applyDomainScores rest s
    else applyDomainScores rest s

/-- The `if (!this.simMode)` body of `fetchLive`'s success path: overwrite
the targets and instantaneous fields from the validated payload (`q` is the
numeric `edge_score`, `rg` the truthy `regime`), then run the domain-score
loop when `domain_scores` is a truthy object.  An iterable array makes the
loop body never fire (no index string is a domain key), so the `.arr` case
leaves the targets alone, like the other non-object cases. -/
def applyLive (data : Json) (q : ℚ) (rg : Option Json) (s : NerveState) :
    Except NerveState (NerveState × Json) :=
  let s1 : NerveState :=
    { s with
      targetEdge := q
      fragility := jsOr (jsMemberOk data "fragility_ratio") (.num 0)
      momentum := jsOr (jsMemberOk data "momentum") (.num 0)
      regime := rg.getD .null
      lastUpdate := jsMemberOk data "timestamp" }
  match jsMemberOk data "domain_scores" with
  | some (.obj fs) => (applyDomainScores fs s1).map fun s2 => (s2, data)
  | some (.arr _) => .ok (s1, data)
  | _ => .ok (s1, data)

/-- The `try` block of `fetchLive`.  `Except.error` is a thrown (and later
caught) exception; it carries the state as mutated before the throw. -/
def fetchLiveTry (r : FetchResponse) (s : NerveState) : Except NerveState (NerveState × Json) :=
  match r with
  | .netError => .error s
  | .httpError => .error s
  | .badContentType => .error s
  | .body none => .error s
  | .body (some data) =>
    match jsMember data "edge_score" with
    | .error _ => .error s
    | .ok (some (.num q)) =>
      match jsMember data "regime" with
      | .error _ => .error s
      | .ok rg =>
        if truthyOpt rg then
          if s.simMode then .ok (s, data)
          else applyLive data q rg s
        else .error s
    | .ok _ => .error s

/-- `fetchLive()`, with the asynchronous fetch modelled synchronously: `r`
is the settled outcome of the request.  Returns the new state together with
the function's return value (`some data` on success, `null` from the
catch).  On an iterable `domain_scores` array the loop body never fires (no
index string is a domain key), which the `.arr` case of `fetchLiveTry`
reflects. -/
def fetchLive (r : FetchResponse) (s : NerveState) : NerveState × Option Json :=
  match fetchLiveTry r s with
  | .ok (s1, data) => ({ s1 with apiAvailable := true }, some data)
  | .error s1 =>
    if s1.simMode then ({ s1 with apiAvailable := false }, none)
    else ({ s1 with apiAvailable := false, simMode := true }, none)

/-- `setSimLevel(level)`.  The guard `this.targetDomains[d]` is truthy for
all five keys of the preset, so every target score is overwritten. -/
def setSimLevel (level : ℕ) (s : NerveState) : NerveState :=
  let idx := level % simLevels.length
  let sim := simLevels.getD idx ⟨0, "", 0, ⟨0, 0, 0, 0, 0⟩⟩
  { s with
    simLevel := idx
    simMode := true
    targetEdge := sim.edge
    regime := .str sim.regime
    fragility := .num sim.fragility
    targetDomains := sim.domains }

/-- `nextSimLevel()`. -/
def nextSimLevel (s : NerveState) : NerveState := setSimLevel (s.simLevel + 1) s

/-- `toggleSimMode()`.  The second component records whether a fetch was
started by the toggle. -/
def toggleSimMode (r : FetchResponse) (s : NerveState) : NerveState × Bool :=
  if s.apiAvailable then
    let s1 := { s with simMode := !s.simMode }
    if s1.simMode then (s1, false) else ((fetchLive r s1).1, true)
  else (s, false)

/-- p5.js `lerp` over the rationals. -/
def lerp (a b t : ℚ) : ℚ := a + (b - a) * t

/-- The first smoothing assignment of `update()`:
`this.edgeScore = lerp(this.edgeScore, this.targetEdge, this.lerpSpeed)`. -/
def smoothEdge (s : NerveState) : NerveState :=
  { s with edgeScore := lerp s.edgeScore s.targetEdge lerpSpeed }

/-- The domain loop of `update()`: every `targetDomains[d]` is a truthy
object, so all five domain scores are smoothed toward their targets. -/
def smoothDomains (s : NerveState) : NerveState :=
  { s with domains :=
      { markets := lerp s.domains.markets s.targetDomains.markets lerpSpeed
        climate := lerp s.domains.climate s.targetDomains.climate lerpSpeed
        information := lerp s.domains.information s.targetDomains.information lerpSpeed
        socialConflict := lerp s.domains.socialConflict s.targetDomains.socialConflict lerpSpeed
        supplyChain := lerp s.domains.supplyChain s.targetDomains.supplyChain lerpSpeed } }

/-- The smoothing part of `update()`, in source order. -/
def smoothStep (s : NerveState) : NerveState := smoothDomains (smoothEdge s)

/-- `update()` called at clock time `now` (milliseconds): smooth, then —
only when not in sim mode and the poll interval has elapsed — stamp
`lastFetch` and poll, `r` being that poll's settled outcome. -/
def update (now : ℚ) (r : FetchResponse) (s : NerveState) : NerveState :=
  if (smoothStep s).simMode = false ∧ fetchInterval < now - (smoothStep s).lastFetch then
    (fetchLive r { smoothStep s with lastFetch := now }).1
  else smoothStep s

/-- N successive frames: each frame calls `update` with that frame's clock
time and, should a poll fire, that poll's outcome. -/
def updateSeq (frames : List (ℚ × FetchResponse)) (s : NerveState) : NerveState :=
  frames.foldl (fun st f => update f.1 f.2 st) s

/-- Whether a fetch outcome fails `fetchLive`'s validation before any state
is mutated: network/HTTP/content-type failure, a body that does not parse,
or a parsed body without a numeric `edge_score` and truthy `regime`. -/
def failsValidation : FetchResponse → Bool
  | .netError => true
  | .httpError => true
  | .badContentType => true
  | .body none => true
  | .body (some data) =>
    match jsMember data "edge_score" with
    | .error _ => true
    | .ok (some (.num _)) =>
      match jsMember data "regime" with
      | .error _ => true
      | .ok rg => !(truthyOpt rg)
    | .ok _ => true

/-- The well-formed payload of the live-update scenario:
`{edge_score: 0.42, regime: "STRESSED", fragility_ratio: 0.3,
domain_scores: {"Markets": {"score": 0.5}}}`. -/
def c4Payload : Json :=
  .obj [("edge_score", .num 0.42), ("regime", .str "STRESSED"),
        ("fragility_ratio", .num 0.3),
        ("domain_scores", .obj [("Markets", .obj [("score", .num 0.5)])])]

/-- Projection of a possibly-thrown stateful computation onto the state it
left behind (caught exceptions carry the mutated state). -/
def caughtState : Except NerveState NerveState → NerveState
  | .ok s => s
  | .error s => s

/-- Projection of the `try` block's outcome onto the state it left behind. -/
def resultState : Except NerveState (NerveState × Json) → NerveState
  | .ok (s1, _) => s1
  | .error s1 => s1

/-- `maxHistory = 800`, the capacity of the pulse scene's ring buffers. -/
def maxHistory : ℕ := 800

/-- `history.push(v); if (history.length > maxHistory) history.shift();` —
one buffer's maintenance in the pulse scene's `draw()`. -/
def pushHistory (h : List ℚ) (v : ℚ) : List ℚ :=
  if maxHistory < (h ++ [v]).length then (h ++ [v]).drop 1 else h ++ [v]

/-- The six ring buffers of the pulse scene: the main score history and the
five per-domain histories. -/
structure PulseHistories where
  main : List ℚ
  markets : List ℚ
  climate : List ℚ
  information : List ℚ
  socialConflict : List ℚ
  supplyChain : List ℚ

/-- One frame of the pulse scene's history maintenance (`draw()` lines
62–71): exactly one sample is pushed to the main buffer and to each domain
buffer, evicting the oldest entry of any buffer that would exceed
capacity. -/
def pulseFrame (vMain vMar vCli vInf vSoc vSup : ℚ) (H : PulseHistories) : PulseHistories :=
  ⟨pushHistory H.main vMain, pushHistory H.markets vMar, pushHistory H.climate vCli,
   pushHistory H.information vInf, pushHistory H.socialConflict vSoc,
   pushHistory H.supplyChain vSup⟩

/-- p5.js `constrain(n, low, high)`. -/
def constrain (n low high : ℚ) : ℚ := max (min n high) low

/-- `easeOutCubic(t) = 1 - pow(1 - t, 3)` from the fracture sketch. -/
def easeOutCubic (t : ℚ) : ℚ := 1 - (1 - t) ^ 3

/-- The per-fragment separation amount of `drawFragments` (lines 162–164):
`max(0, (currentFracture - crackDelay) / (1 - crackDelay))`, constrained to
`[0, 1]`, then eased by `easeOutCubic`. -/
def localFracture (currentFracture crackDelay : ℚ) : ℚ :=
  easeOutCubic (constrain (max 0 ((currentFracture - crackDelay) / (1 - crackDelay))) 0 1)

/-- Truncation toward zero, as JavaScript's remainder operator uses. -/
noncomputable def jsTrunc (x : ℝ) : ℤ := if 0 ≤ x then ⌊x⌋ else ⌈x⌉

/-- The JavaScript remainder `a % b` for `b > 0`:
`a - b * trunc(a / b)`, taking the sign of the dividend. -/
noncomputable def jsRem (a b : ℝ) : ℝ := a - b * jsTrunc (a / b)

/-- `angleDifference(a, b)` from the clock sketch:
`diff = ((b - a + PI) % TWO_PI) - PI; if (diff < -PI) diff += TWO_PI;`. -/
noncomputable def angleDifference (a b : ℝ) : ℝ :=
  if jsRem (b - a + π) (2 * π) - π < -π then jsRem (b - a + π) (2 * π) - π + 2 * π
  else jsRem (b - a + π) (2 * π) - π

/-- The fixed sum of Gaussian bumps of `generateHeartbeat` (P wave, QRS
complex, T wave), applied to the wrapped phase. -/
noncomputable def heartbeatBumps (t : ℝ) : ℝ :=
  0.15 * Real.exp (-(((t - 0.1) * 20) ^ 2))
    - 0.2 * Real.exp (-(((t - 0.25) * 30) ^ 2))
    + 1.0 * Real.exp (-(((t - 0.3) * 25) ^ 2))
    - 0.3 * Real.exp (-(((t - 0.35) * 30) ^ 2))
    + 0.25 * Real.exp (-(((t - 0.55) * 12) ^ 2))

/-- `generateHeartbeat(t, intensity)`: the phase wrap `t = t % 1`, the bump
sum, and the noise term.  The p5 `noise` oracle and the global `phase` are
passed explicitly. -/
noncomputable def generateHeartbeat (noiseF : ℝ → ℝ) (phase : ℝ) (t intensity : ℝ) : ℝ :=
  heartbeatBumps (jsRem t 1) + (noiseF (jsRem t 1 * 50 + phase * 10) - 0.5) * intensity * 0.3

/-- `generateHeartbeat` with the noise term removed. -/
noncomputable def generateHeartbeatDet (t : ℝ) : ℝ := heartbeatBumps (jsRem t 1)

/-- p5.js `lerp` over the reals. -/
noncomputable def lerpR (a b t : ℝ) : ℝ := a + (b - a) * t

/-- The domain-current blend of a cell angle in `updateFlowField` (line
218): `angle = lerp(angle, currentAngle, influence * 0.5)` — a raw scalar
lerp of two angles. -/
noncomputable def cellBlend (angle currentAngle influence : ℝ) : ℝ :=
  lerpR angle currentAngle (influence * 0.5)

/-- The pointer-proximity blend of a cell angle in `updateFlowField` (line
229): `angle = lerp(angle, mouseAngle, mouseInfluence)` — again a raw
scalar lerp. -/
noncomputable def mouseBlend (angle mouseAngle mouseInfluence : ℝ) : ℝ :=
  lerpR angle mouseAngle mouseInfluence

/-- Modelled from the spec: the directional (shortest-path) blend the spec
prescribes for circular quantities, realised with the repository's own
shortest-angular-difference helper. -/
noncomputable def directionalBlend (a b t : ℝ) : ℝ := a + angleDifference a b * t

/-! ## Theorems -/

lemma resultState_map (e : Except NerveState NerveState) (d : Json) :
    resultState (e.map fun s2 => (s2, d)) = caughtState e := by
  cases e <;> rfl

lemma applyDomainScores_smoothed (fs : List (String × Json)) :
    ∀ s : NerveState,
      (caughtState (applyDomainScores fs s)).edgeScore = s.edgeScore ∧
      (caughtState (applyDomainScores fs s)).domains = s.domains := by
  induction fs with
  | nil => intro s; exact ⟨rfl, rfl⟩
  | cons kv rest ih =>
    intro s
    obtain ⟨key, v⟩ := kv
    simp only [applyDomainScores]
    cases hk : isDomainKey key
    · exact ih s
    · cases v with
      | null => exact ⟨rfl, rfl⟩
      | bool b => exact ih s
      | num q2 => exact ih s
      | str s2 => exact ih s
      | arr es => exact ih s
      | obj fs2 =>
        simp only [jsMember]
        cases hsc : lookupField fs2 "score" with
        | none => exact ih s
        | some j =>
          cases j with
          | null => exact ih s
          | bool b => exact ih s
          | num q => exact ih _
          | str s2 => exact ih s
          | arr es => exact ih s
          | obj fs3 => exact ih s

lemma applyLive_smoothed (data : Json) (q : ℚ) (rg : Option Json) (s : NerveState) :
    (resultState (applyLive data q rg s)).edgeScore = s.edgeScore ∧
    (resultState (applyLive data q rg s)).domains = s.domains := by
  unfold applyLive
  split
  · rw [resultState_map]
    exact applyDomainScores_smoothed _ _
  · exact ⟨rfl, rfl⟩
  · exact ⟨rfl, rfl⟩

lemma fetchLiveTry_smoothed (r : FetchResponse) (s : NerveState) :
    (resultState (fetchLiveTry r s)).edgeScore = s.edgeScore ∧
    (resultState (fetchLiveTry r s)).domains = s.domains := by
  unfold fetchLiveTry
  repeat' split
  all_goals first
    | exact ⟨rfl, rfl⟩
    | exact applyLive_smoothed _ _ _ _

lemma fetchLive_smoothed (r : FetchResponse) (s : NerveState) :
    (fetchLive r s).1.edgeScore = s.edgeScore ∧
    (fetchLive r s).1.domains = s.domains := by
  have h := fetchLiveTry_smoothed r s
  unfold fetchLive
  cases he : fetchLiveTry r s with
  | ok p =>
    obtain ⟨s1, d⟩ := p
    rw [he] at h
    simp only [he]
    exact h
  | error s1 =>
    rw [he] at h
    simp only [he]
    split
    · exact h
    · exact h

/-- C5: when `apiAvailable` is false, `toggleSimMode` leaves the whole
state (in particular `simMode`) unchanged and starts no fetch, so
SIMULATED mode cannot be escaped by the toggle before any fetch has ever
succeeded. -/
theorem c5_toggle_refused_without_api (r : FetchResponse) (s : NerveState)
    (h : s.apiAvailable = false) : toggleSimMode r s = (s, false) := by
  unfold toggleSimMode
  rw [h]
  simp

/-- C5 witness: the toggle is a no-op on the freshly constructed state. -/
theorem c5_toggle_refused_without_api_witness :
    initialState.apiAvailable = false ∧
      toggleSimMode .netError initialState = (initialState, false) :=
  ⟨rfl, c5_toggle_refused_without_api .netError initialState rfl⟩


lemma toggleSimMode_smoothed (r : FetchResponse) (s : NerveState) :
    (toggleSimMode r s).1.edgeScore = s.edgeScore ∧
    (toggleSimMode r s).1.domains = s.domains := by
  obtain ⟨e, f, m, g, d, lu, sm, aa, sl, te, td, lf⟩ := s
  cases aa
  · exact ⟨rfl, rfl⟩
  · cases sm
    · exact ⟨rfl, rfl⟩
    · exact fetchLive_smoothed r _

/-- C3 counterexample: the manual ladder advance `setSimLevel(4)` from the
initial state assigns the displayed `fragility` and `regime` new values in
one step, with no smoothing. -/
theorem c3_counterexample :
    (setSimLevel 4 initialState).fragility = Json.num 0.65 ∧
    (setSimLevel 4 initialState).regime = Json.str "STRESSED" ∧
    (setSimLevel 4 initialState).fragility ≠ initialState.fragility ∧
    (setSimLevel 4 initialState).regime ≠ initialState.regime := by
  refine ⟨rfl, rfl, ?_, ?_⟩
  · intro h
    rw [show (setSimLevel 4 initialState).fragility = Json.num 0.65 from rfl] at h
    rw [show initialState.fragility = Json.num 0 from rfl] at h
    injection h with h2
    norm_num at h2
  · intro h
    rw [show (setSimLevel 4 initialState).regime = Json.str "STRESSED" from rfl] at h
    rw [show initialState.regime = Json.str "CALM" from rfl] at h
    injection h with h2
    simp at h2

/-- C3 amended: the no-instantaneous-assignment guarantee holds for the
smoothed fields — the displayed `edgeScore` and the five displayed domain
scores are never overwritten by a poll, a ladder advance, or the mode
toggle, which write only `targetEdge`/`targetDomains` (plus the
instantaneous `regime`/`fragility`). -/
theorem c3_smoothed_never_jump (s : NerveState) (level : ℕ) (r : FetchResponse) :
    (setSimLevel level s).edgeScore = s.edgeScore ∧
    (setSimLevel level s).domains = s.domains ∧
    (fetchLive r s).1.edgeScore = s.edgeScore ∧
    (fetchLive r s).1.domains = s.domains ∧
    (toggleSimMode r s).1.edgeScore = s.edgeScore ∧
    (toggleSimMode r s).1.domains = s.domains :=
  ⟨rfl, rfl, (fetchLive_smoothed r s).1, (fetchLive_smoothed r s).2,
   (toggleSimMode_smoothed r s).1, (toggleSimMode_smoothed r s).2⟩

lemma fetchLiveTry_of_failsValidation (r : FetchResponse) (s : NerveState)
    (h : failsValidation r = true) : fetchLiveTry r s = .error s := by
  cases r with
  | netError => rfl
  | httpError => rfl
  | badContentType => rfl
  | body p =>
    cases p with
    | none => rfl
    | some data =>
      simp only [failsValidation] at h
      simp only [fetchLiveTry]
      cases hm : jsMember data "edge_score" with
      | error u => rfl
      | ok es =>
        rw [hm] at h
        cases es with
        | none => rfl
        | some j =>
          cases j with
          | null => rfl
          | bool b => rfl
          | str s2 => rfl
          | arr es2 => rfl
          | obj fs2 => rfl
          | num q =>
            cases hr : jsMember data "regime" with
            | error u => rfl
            | ok rg =>
              rw [hr] at h
              simp only [Bool.not_eq_true'] at h
              simp [h]

/-- C2 counterexample: a malformed JSON body (parse failure) does return
null, but from LIVE mode it does not leave the mode unchanged — the catch
branch switches the reconciler to SIMULATED. -/
theorem c2_counterexample :
    ({ initialState with simMode := false } : NerveState).simMode = false ∧
    (fetchLive (.body none) { initialState with simMode := false }).2 = none ∧
    (fetchLive (.body none) { initialState with simMode := false }).1.simMode = true :=
  ⟨rfl, rfl, rfl⟩

/-- C2 amended: a fetch that fails validation (malformed JSON body
included) returns null and leaves every target value — indeed every field
other than `simMode` and `apiAvailable` — unchanged; the mode is unchanged
when starting in SIMULATED, while from LIVE the failure demotes the mode to
SIMULATED and clears `apiAvailable`. -/
theorem c2_failed_validation (r : FetchResponse) (s : NerveState)
    (h : failsValidation r = true) :
    (fetchLive r s).2 = none ∧
    (fetchLive r s).1 = { s with simMode := true, apiAvailable := false } := by
  have he := fetchLiveTry_of_failsValidation r s h
  unfold fetchLive
  rw [he]
  obtain ⟨e, f, m, g, d, lu, sm, aa, sl, te, td, lf⟩ := s
  cases sm
  · exact ⟨rfl, rfl⟩
  · exact ⟨rfl, rfl⟩

/-- C2 witness: the malformed-body outcome at the freshly constructed
state. -/
theorem c2_failed_validation_witness :
    failsValidation (.body none) = true ∧
    (fetchLive (.body none) initialState).2 = none ∧
    (fetchLive (.body none) initialState).1 =
      { initialState with simMode := true, apiAvailable := false } :=
  ⟨rfl, (c2_failed_validation (.body none) initialState rfl).1,
    (c2_failed_validation (.body none) initialState rfl).2⟩


/-- C4: in LIVE mode, the well-formed payload overwrites `targetEdge`,
`regime`, and the Markets target score, leaves the other four domains'
targets unchanged, and the domain loop drops unknown keys and known keys
whose score is not a number, retaining prior values. -/
theorem c4_live_payload_applied (s : NerveState) (hs : s.simMode = false)
    (st : NerveState) (k : String) (v : Json) (rest : List (String × Json))
    (hk : isDomainKey k = false)
    (k2 : String) (hk2 : isDomainKey k2 = true) (fs2 : List (String × Json))
    (hns : ∀ q : ℚ, lookupField fs2 "score" ≠ some (.num q)) :
    ((fetchLive (.body (some c4Payload)) s).1.targetEdge = 0.42 ∧
     (fetchLive (.body (some c4Payload)) s).1.regime = .str "STRESSED" ∧
     (fetchLive (.body (some c4Payload)) s).1.targetDomains.markets = 0.5 ∧
     (fetchLive (.body (some c4Payload)) s).1.targetDomains.climate = s.targetDomains.climate ∧
     (fetchLive (.body (some c4Payload)) s).1.targetDomains.information = s.targetDomains.information ∧
     (fetchLive (.body (some c4Payload)) s).1.targetDomains.socialConflict = s.targetDomains.socialConflict ∧
     (fetchLive (.body (some c4Payload)) s).1.targetDomains.supplyChain = s.targetDomains.supplyChain) ∧
    applyDomainScores ((k, v) :: rest) st = applyDomainScores rest st ∧
    applyDomainScores ((k2, .obj fs2) :: rest) st = applyDomainScores rest st := by
  refine ⟨?_, ?_, ?_⟩
  · obtain ⟨e, f, m, g, d, lu, sm, aa, sl, te, td, lf⟩ := s
    cases sm
    · exact ⟨rfl, rfl, rfl, rfl, rfl, rfl, rfl⟩
    · exact absurd hs (by simp)
  · simp [applyDomainScores, hk]
  · simp only [applyDomainScores, hk2, if_true, jsMember]

/-- C4 witness: the payload applied to the freshly constructed state in
LIVE mode, with an unknown key and a string-valued Markets score dropped. -/
theorem c4_live_payload_applied_witness :
    ({ initialState with simMode := false } : NerveState).simMode = false ∧
    isDomainKey "Bogus" = false ∧
    isDomainKey "Markets" = true ∧
    (((fetchLive (.body (some c4Payload)) { initialState with simMode := false }).1.targetEdge = 0.42 ∧
      (fetchLive (.body (some c4Payload)) { initialState with simMode := false }).1.regime = .str "STRESSED" ∧
      (fetchLive (.body (some c4Payload)) { initialState with simMode := false }).1.targetDomains.markets = 0.5 ∧
      (fetchLive (.body (some c4Payload)) { initialState with simMode := false }).1.targetDomains.climate =
        ({ initialState with simMode := false } : NerveState).targetDomains.climate ∧
      (fetchLive (.body (some c4Payload)) { initialState with simMode := false }).1.targetDomains.information =
        ({ initialState with simMode := false } : NerveState).targetDomains.information ∧
      (fetchLive (.body (some c4Payload)) { initialState with simMode := false }).1.targetDomains.socialConflict =
        ({ initialState with simMode := false } : NerveState).targetDomains.socialConflict ∧
      (fetchLive (.body (some c4Payload)) { initialState with simMode := false }).1.targetDomains.supplyChain =
        ({ initialState with simMode := false } : NerveState).targetDomains.supplyChain) ∧
     applyDomainScores [("Bogus", .null)] initialState = applyDomainScores [] initialState ∧
     applyDomainScores [("Markets", .obj [("score", .str "NA")])] initialState =
       applyDomainScores [] initialState) :=
  ⟨rfl, rfl, rfl,
    c4_live_payload_applied { initialState with simMode := false } rfl initialState
      "Bogus" .null [] rfl "Markets" rfl [("score", .str "NA")]
      (by intro q hq; simp [lookupField] at hq)⟩


/-- C6: the pulse scene's buffers never exceed capacity 800; at capacity a
push appends the new sample and evicts exactly the oldest (strict FIFO),
and one frame pushes exactly one sample per buffer. -/
theorem c6_history_capacity (h : List ℚ) (v : ℚ) (hle : h.length ≤ maxHistory)
    (g : List ℚ) (w : ℚ) (hg : g.length = maxHistory)
    (vMain vMar vCli vInf vSoc vSup : ℚ) (H : PulseHistories) :
    (pushHistory h v).length ≤ maxHistory ∧
    pushHistory g w = g.drop 1 ++ [w] ∧
    (pushHistory g w).length = maxHistory ∧
    pulseFrame vMain vMar vCli vInf vSoc vSup H =
      ⟨pushHistory H.main vMain, pushHistory H.markets vMar, pushHistory H.climate vCli,
       pushHistory H.information vInf, pushHistory H.socialConflict vSoc,
       pushHistory H.supplyChain vSup⟩ := by
  have hle800 : h.length ≤ 800 := hle
  have hg800 : g.length = 800 := hg
  have hdrop : pushHistory g w = g.drop 1 ++ [w] := by
    unfold pushHistory
    rw [if_pos]
    · rw [List.drop_append_of_le_length (by omega)]
    · simp only [List.length_append, List.length_cons, List.length_nil, maxHistory]
      omega
  refine ⟨?_, hdrop, ?_, rfl⟩
  · unfold pushHistory
    split
    · simp only [List.length_drop, List.length_append, List.length_cons, List.length_nil,
        maxHistory]
      omega
    · rename_i hc
      simp only [List.length_append, List.length_cons, List.length_nil, maxHistory,
        not_lt] at hc ⊢
      omega
  · rw [hdrop]
    simp only [List.length_append, List.length_drop, List.length_cons, List.length_nil,
      maxHistory]
    omega

/-- C6 witness: the buffers as pre-filled by `setup()` (800 samples each). -/
theorem c6_history_capacity_witness :
    ([] : List ℚ).length ≤ maxHistory ∧
    (List.replicate 800 (0.1 : ℚ)).length = maxHistory ∧
    ((pushHistory [] 0).length ≤ maxHistory ∧
     pushHistory (List.replicate 800 (0.1 : ℚ)) 0.2 = (List.replicate 800 (0.1 : ℚ)).drop 1 ++ [0.2] ∧
     (pushHistory (List.replicate 800 (0.1 : ℚ)) 0.2).length = maxHistory ∧
     pulseFrame 0.1 0.01 0.01 0.01 0.01 0.5
        ⟨List.replicate 800 0.1, List.replicate 800 0.01, List.replicate 800 0.01,
         List.replicate 800 0.01, List.replicate 800 0.01, List.replicate 800 0.01⟩ =
      ⟨pushHistory (List.replicate 800 0.1) 0.1, pushHistory (List.replicate 800 0.01) 0.01,
       pushHistory (List.replicate 800 0.01) 0.01, pushHistory (List.replicate 800 0.01) 0.01,
       pushHistory (List.replicate 800 0.01) 0.01, pushHistory (List.replicate 800 0.01) 0.5⟩) :=
  ⟨by simp, by rw [List.length_replicate]; rfl,
    c6_history_capacity [] 0 (by simp) (List.replicate 800 0.1) 0.2
      (by rw [List.length_replicate]; rfl) 0.1 0.01 0.01 0.01 0.01 0.5 _⟩


lemma constrain_unit_nonneg (x : ℚ) : 0 ≤ constrain x 0 1 := le_max_right _ _

lemma constrain_unit_le_one (x : ℚ) : constrain x 0 1 ≤ 1 :=
  max_le (min_le_right _ _) zero_le_one

lemma constrain_unit_mono {x y : ℚ} (hxy : x ≤ y) : constrain x 0 1 ≤ constrain y 0 1 :=
  max_le_max (min_le_min hxy le_rfl) le_rfl

/-- C7: for a fixed release threshold in (0,1) the eased local fracture is
monotonically non-decreasing in the global fracture amount, and vanishes
whenever the fracture amount is at most the threshold. -/
theorem c7_localFracture_monotone (rt : ℚ) (h0 : 0 < rt) (h1 : rt < 1)
    (f1 f2 : ℚ) (hf : f1 ≤ f2) (g : ℚ) (hg : g ≤ rt) :
    localFracture f1 rt ≤ localFracture f2 rt ∧ localFracture g rt = 0 := by
  have hc : 0 < 1 - rt := by linarith
  constructor
  · unfold localFracture
    set u1 := constrain (max 0 ((f1 - rt) / (1 - rt))) 0 1 with hu1
    set u2 := constrain (max 0 ((f2 - rt) / (1 - rt))) 0 1 with hu2
    have hdiv : (f1 - rt) / (1 - rt) ≤ (f2 - rt) / (1 - rt) :=
      (div_le_div_iff_of_pos_right hc).mpr (by linarith)
    have hu : u1 ≤ u2 := constrain_unit_mono (max_le_max le_rfl hdiv)
    have hub : u2 ≤ 1 := constrain_unit_le_one _
    unfold easeOutCubic
    have hpow : (1 - u2) ^ 3 ≤ (1 - u1) ^ 3 :=
      pow_le_pow_left₀ (by linarith) (by linarith) 3
    linarith
  · unfold localFracture
    have hnum : (g - rt) / (1 - rt) ≤ 0 := by
      apply div_nonpos_of_nonpos_of_nonneg (by linarith) (le_of_lt hc)
    rw [max_eq_left hnum]
    norm_num [constrain, easeOutCubic]

/-- C7 witness: threshold 1/2, fracture amounts 0 ≤ 1, and a subthreshold
amount 1/4. -/
theorem c7_localFracture_monotone_witness :
    (0 : ℚ) < 1/2 ∧ (1/2 : ℚ) < 1 ∧ (0 : ℚ) ≤ 1 ∧ (1/4 : ℚ) ≤ 1/2 ∧
    (localFracture 0 (1/2) ≤ localFracture 1 (1/2) ∧ localFracture (1/4) (1/2) = 0) :=
  ⟨by norm_num, by norm_num, by norm_num, by norm_num,
    c7_localFracture_monotone (1/2) (by norm_num) (by norm_num) 0 1 (by norm_num)
      (1/4) (by norm_num)⟩


lemma update_of_sim (now : ℚ) (r : FetchResponse) (s : NerveState)
    (hs : s.simMode = true ∨ ¬ fetchInterval < now - s.lastFetch) :
    update now r s = smoothStep s := by
  unfold update
  rw [if_neg]
  rintro ⟨h1, h2⟩
  cases hs with
  | inl h =>
    rw [show (smoothStep s).simMode = s.simMode from rfl, h] at h1
    cases h1
  | inr h => exact h h2

lemma updateSeq_sim_closed (frames : List (ℚ × FetchResponse)) :
    ∀ s : NerveState, s.simMode = true →
      (updateSeq frames s).simMode = true ∧
      (updateSeq frames s).targetEdge = s.targetEdge ∧
      (updateSeq frames s).targetDomains = s.targetDomains ∧
      (updateSeq frames s).edgeScore =
        s.targetEdge - (s.targetEdge - s.edgeScore) * (1 - lerpSpeed) ^ frames.length ∧
      (updateSeq frames s).domains.markets =
        s.targetDomains.markets -
          (s.targetDomains.markets - s.domains.markets) * (1 - lerpSpeed) ^ frames.length ∧
      (updateSeq frames s).domains.climate =
        s.targetDomains.climate -
          (s.targetDomains.climate - s.domains.climate) * (1 - lerpSpeed) ^ frames.length ∧
      (updateSeq frames s).domains.information =
        s.targetDomains.information -
          (s.targetDomains.information - s.domains.information) * (1 - lerpSpeed) ^ frames.length ∧
      (updateSeq frames s).domains.socialConflict =
        s.targetDomains.socialConflict -
          (s.targetDomains.socialConflict - s.domains.socialConflict) * (1 - lerpSpeed) ^ frames.length ∧
      (updateSeq frames s).domains.supplyChain =
        s.targetDomains.supplyChain -
          (s.targetDomains.supplyChain - s.domains.supplyChain) * (1 - lerpSpeed) ^ frames.length := by
  induction frames with
  | nil =>
    intro s hs
    refine ⟨hs, rfl, rfl, ?_, ?_, ?_, ?_, ?_, ?_⟩ <;>
      · simp only [updateSeq, List.foldl_nil, List.length_nil, pow_zero]
        ring
  | cons fr rest ih =>
    intro s hs
    have hstep : update fr.1 fr.2 s = smoothStep s := update_of_sim fr.1 fr.2 s (Or.inl hs)
    have hsm : (smoothStep s).simMode = true := hs
    have hseq : updateSeq (fr :: rest) s = updateSeq rest (smoothStep s) := by
      simp only [updateSeq, List.foldl_cons, hstep]
    obtain ⟨H1, H2, H3, H4, H5, H6, H7, H8, H9⟩ := ih (smoothStep s) hsm
    rw [hseq]
    refine ⟨H1, H2, H3, ?_, ?_, ?_, ?_, ?_, ?_⟩ <;>
      · first
          | rw [H4] | rw [H5] | rw [H6] | rw [H7] | rw [H8] | rw [H9]
        simp only [smoothStep, smoothEdge, smoothDomains, lerp, List.length_cons]
        ring

/-- C1: with the reconciler in SIMULATED mode (so the target is fixed and
no poll fires), N calls to `update()` drive `edgeScore` and every displayed
domain score to the closed-form exponential-smoothing value
`target - (target - start) * (1 - k)^N` with `k = lerpSpeed = 0.02`; the
per-field smoothing steps commute (order-independent), and whenever the
poll guard is inactive `update` is exactly the smoothing step. -/
theorem c1_exponential_smoothing (s : NerveState) (hs : s.simMode = true)
    (frames : List (ℚ × FetchResponse)) (s2 : NerveState)
    (now : ℚ) (r : FetchResponse) (s3 : NerveState)
    (h3 : s3.simMode = true ∨ ¬ fetchInterval < now - s3.lastFetch) :
    ((updateSeq frames s).edgeScore =
       s.targetEdge - (s.targetEdge - s.edgeScore) * (1 - lerpSpeed) ^ frames.length ∧
     (updateSeq frames s).domains.markets =
       s.targetDomains.markets -
         (s.targetDomains.markets - s.domains.markets) * (1 - lerpSpeed) ^ frames.length ∧
     (updateSeq frames s).domains.climate =
       s.targetDomains.climate -
         (s.targetDomains.climate - s.domains.climate) * (1 - lerpSpeed) ^ frames.length ∧
     (updateSeq frames s).domains.information =
       s.targetDomains.information -
         (s.targetDomains.information - s.domains.information) * (1 - lerpSpeed) ^ frames.length ∧
     (updateSeq frames s).domains.socialConflict =
       s.targetDomains.socialConflict -
         (s.targetDomains.socialConflict - s.domains.socialConflict) * (1 - lerpSpeed) ^ frames.length ∧
     (updateSeq frames s).domains.supplyChain =
       s.targetDomains.supplyChain -
         (s.targetDomains.supplyChain - s.domains.supplyChain) * (1 - lerpSpeed) ^ frames.length) ∧
    smoothEdge (smoothDomains s2) = smoothDomains (smoothEdge s2) ∧
    update now r s3 = smoothStep s3 := by
  obtain ⟨-, -, -, H4, H5, H6, H7, H8, H9⟩ := updateSeq_sim_closed frames s hs
  exact ⟨⟨H4, H5, H6, H7, H8, H9⟩, rfl, update_of_sim now r s3 h3⟩

/-- C1 witness: two simulated-mode frames from the freshly constructed
state. -/
theorem c1_exponential_smoothing_witness :
    initialState.simMode = true ∧
    (((updateSeq [((0 : ℚ), FetchResponse.netError), ((1000 : ℚ), FetchResponse.netError)]
          initialState).edgeScore =
        initialState.targetEdge -
          (initialState.targetEdge - initialState.edgeScore) * (1 - lerpSpeed) ^
            ([((0 : ℚ), FetchResponse.netError), ((1000 : ℚ), FetchResponse.netError)].length) ∧
      (updateSeq [((0 : ℚ), FetchResponse.netError), ((1000 : ℚ), FetchResponse.netError)]
          initialState).domains.markets =
        initialState.targetDomains.markets -
          (initialState.targetDomains.markets - initialState.domains.markets) * (1 - lerpSpeed) ^
            ([((0 : ℚ), FetchResponse.netError), ((1000 : ℚ), FetchResponse.netError)].length) ∧
      (updateSeq [((0 : ℚ), FetchResponse.netError), ((1000 : ℚ), FetchResponse.netError)]
          initialState).domains.climate =
        initialState.targetDomains.climate -
          (initialState.targetDomains.climate - initialState.domains.climate) * (1 - lerpSpeed) ^
            ([((0 : ℚ), FetchResponse.netError), ((1000 : ℚ), FetchResponse.netError)].length) ∧
      (updateSeq [((0 : ℚ), FetchResponse.netError), ((1000 : ℚ), FetchResponse.netError)]
          initialState).domains.information =
        initialState.targetDomains.information -
          (initialState.targetDomains.information - initialState.domains.information) *
            (1 - lerpSpeed) ^
            ([((0 : ℚ), FetchResponse.netError), ((1000 : ℚ), FetchResponse.netError)].length) ∧
      (updateSeq [((0 : ℚ), FetchResponse.netError), ((1000 : ℚ), FetchResponse.netError)]
          initialState).domains.socialConflict =
        initialState.targetDomains.socialConflict -
          (initialState.targetDomains.socialConflict - initialState.domains.socialConflict) *
            (1 - lerpSpeed) ^
            ([((0 : ℚ), FetchResponse.netError), ((1000 : ℚ), FetchResponse.netError)].length) ∧
      (updateSeq [((0 : ℚ), FetchResponse.netError), ((1000 : ℚ), FetchResponse.netError)]
          initialState).domains.supplyChain =
        initialState.targetDomains.supplyChain -
          (initialState.targetDomains.supplyChain - initialState.domains.supplyChain) *
            (1 - lerpSpeed) ^
            ([((0 : ℚ), FetchResponse.netError), ((1000 : ℚ), FetchResponse.netError)].length)) ∧
     smoothEdge (smoothDomains initialState) = smoothDomains (smoothEdge initialState) ∧
     update 0 FetchResponse.netError initialState = smoothStep initialState) :=
  ⟨rfl,
    c1_exponential_smoothing initialState rfl
      [((0 : ℚ), FetchResponse.netError), ((1000 : ℚ), FetchResponse.netError)]
      initialState 0 FetchResponse.netError initialState (Or.inl rfl)⟩


lemma jsTrunc_of_nonneg {x : ℝ} (hx : 0 ≤ x) : jsTrunc x = ⌊x⌋ := if_pos hx

lemma jsTrunc_of_neg {x : ℝ} (hx : x < 0) : jsTrunc x = ⌈x⌉ := if_neg (not_le.mpr hx)

lemma jsRem_one_of_nonneg (t : ℝ) (ht : 0 ≤ t) : jsRem t 1 = Int.fract t := by
  unfold jsRem
  rw [div_one, jsTrunc_of_nonneg ht, one_mul]
  rfl

lemma jsRem_congr (a b : ℝ) : ∃ k : ℤ, jsRem a b = a + b * k :=
  ⟨-jsTrunc (a / b), by unfold jsRem; push_cast; ring⟩

lemma jsRem_nonneg_bounds (a b : ℝ) (hb : 0 < b) (ha : 0 ≤ a) :
    0 ≤ jsRem a b ∧ jsRem a b < b := by
  have hb0 : b ≠ 0 := ne_of_gt hb
  have hq : 0 ≤ a / b := div_nonneg ha hb.le
  have h0 : 0 ≤ a / b - ⌊a / b⌋ := Int.fract_nonneg (a / b)
  have h1 : a / b - ⌊a / b⌋ < 1 := Int.fract_lt_one (a / b)
  have heq : jsRem a b = b * (a / b - ⌊a / b⌋) := by
    unfold jsRem
    rw [jsTrunc_of_nonneg hq, mul_sub, mul_div_cancel₀ a hb0]
  constructor
  · rw [heq]; exact mul_nonneg hb.le h0
  · rw [heq]; nlinarith

lemma jsRem_neg_bounds (a b : ℝ) (hb : 0 < b) (ha : a < 0) :
    -b < jsRem a b ∧ jsRem a b ≤ 0 := by
  have hb0 : b ≠ 0 := ne_of_gt hb
  have hq : a / b < 0 := div_neg_of_neg_of_pos ha hb
  have h0 : a / b - ⌈a / b⌉ ≤ 0 := sub_nonpos.mpr (Int.le_ceil _)
  have h1 : -1 < a / b - ⌈a / b⌉ := by
    have := Int.ceil_lt_add_one (a / b)
    linarith
  have heq : jsRem a b = b * (a / b - ⌈a / b⌉) := by
    unfold jsRem
    rw [jsTrunc_of_neg hq, mul_sub, mul_div_cancel₀ a hb0]
  constructor
  · rw [heq]; nlinarith
  · rw [heq]; nlinarith

/-- C8: the heartbeat waveform with the noise term removed is periodic with
period 1 for `t ≥ 0`, and the full waveform is that deterministic part plus
the noise term — so with noise disabled the output is a function of the
wrapped phase alone, reproducible for identical `t`. -/
theorem c8_heartbeat_periodic (t : ℝ) (ht : 0 ≤ t) (noiseF : ℝ → ℝ)
    (phase intensity : ℝ) :
    generateHeartbeatDet (t + 1) = generateHeartbeatDet t ∧
    generateHeartbeat noiseF phase t intensity =
      generateHeartbeatDet t + (noiseF (jsRem t 1 * 50 + phase * 10) - 0.5) * intensity * 0.3 := by
  constructor
  · unfold generateHeartbeatDet
    rw [jsRem_one_of_nonneg (t + 1) (by linarith), jsRem_one_of_nonneg t ht,
      Int.fract_add_one]
  · rfl

/-- C8 witness: the waveform at `t = 2` with a zero noise oracle. -/
theorem c8_heartbeat_periodic_witness :
    (0 : ℝ) ≤ 2 ∧
    (generateHeartbeatDet ((2 : ℝ) + 1) = generateHeartbeatDet 2 ∧
     generateHeartbeat (fun _ => 0) 0 2 0 =
       generateHeartbeatDet 2 +
         ((fun _ : ℝ => (0 : ℝ)) (jsRem 2 1 * 50 + 0 * 10) - 0.5) * 0 * 0.3) :=
  ⟨zero_le_two, c8_heartbeat_periodic 2 zero_le_two (fun _ => 0) 0 0⟩

/-- C10 counterexample: at `a = π`, `b = 0` the helper returns exactly
`-π`, which lies outside the claimed half-open interval `(-π, π]`. -/
theorem c10_counterexample :
    angleDifference π 0 = -π ∧ ¬ (-π < angleDifference π 0) := by
  have hr : jsRem ((0 : ℝ) - π + π) (2 * π) = 0 := by
    have he : (0 : ℝ) - π + π = 0 := by ring
    rw [he]
    unfold jsRem
    rw [zero_div, jsTrunc_of_nonneg le_rfl, Int.floor_zero]
    push_cast
    ring
  have h1 : angleDifference π 0 = -π := by
    unfold angleDifference
    rw [hr, if_neg (by intro hcon; rw [zero_sub] at hcon; exact lt_irrefl _ hcon)]
    ring
  exact ⟨h1, by rw [h1]; exact lt_irrefl _⟩

/-- C10 amended: `angleDifference(a, b)` returns a value in the half-open
interval `[-π, π)` that is congruent to `b - a` modulo `2π` — the shortest
signed angular difference, with the boundary landing on `-π`, not `π`. -/
theorem c10_angleDifference_shortest (a b : ℝ) :
    (-π ≤ angleDifference a b ∧ angleDifference a b < π) ∧
    ∃ k : ℤ, angleDifference a b = (b - a) + 2 * π * k := by
  unfold angleDifference
  obtain ⟨z, hz⟩ := jsRem_congr (b - a + π) (2 * π)
  have hpi := Real.pi_pos
  by_cases hdn : 0 ≤ b - a + π
  · obtain ⟨hm0, hm2⟩ := jsRem_nonneg_bounds (b - a + π) (2 * π) Real.two_pi_pos hdn
    rw [if_neg (by intro hcon; linarith)]
    refine ⟨⟨by linarith, by linarith⟩, ⟨z, by rw [hz]; ring⟩⟩
  · push_neg at hdn
    obtain ⟨hm0, hm2⟩ := jsRem_neg_bounds (b - a + π) (2 * π) Real.two_pi_pos hdn
    by_cases hc : jsRem (b - a + π) (2 * π) - π < -π
    · rw [if_pos hc]
      refine ⟨⟨by linarith, by linarith⟩, ⟨z + 1, by rw [hz]; push_cast; ring⟩⟩
    · rw [if_neg hc]
      push_neg at hc
      refine ⟨⟨by linarith, by linarith⟩, ⟨z, by rw [hz]; ring⟩⟩

/-- C9: the flow-field blends are raw scalar lerps, not shortest-path
directional interpolation: blending a cell angle `0` halfway toward the
direction `3π/2` yields `3π/4` (crossing the wrap the long way), while the
shortest-path blend built from the repository's own `angleDifference`
yields `-π/4`, and the two differ even modulo `2π`. -/
theorem c9_flow_blend_raw_lerp :
    cellBlend 0 (3 * π / 2) 1 = 3 * π / 4 ∧
    mouseBlend 0 (3 * π / 2) (1 / 2) = 3 * π / 4 ∧
    directionalBlend 0 (3 * π / 2) (1 / 2) = -(π / 4) ∧
    ∀ k : ℤ, 3 * π / 4 ≠ -(π / 4) + 2 * π * k := by
  have hpi := Real.pi_pos
  have hdiv : (3 * π / 2 - 0 + π) / (2 * π) = 5 / 4 := by
    rw [div_eq_iff (ne_of_gt Real.two_pi_pos)]
    ring
  have hfl : jsTrunc ((3 * π / 2 - 0 + π) / (2 * π)) = 1 := by
    rw [hdiv, jsTrunc_of_nonneg (by norm_num)]
    rw [Int.floor_eq_iff]
    norm_num
  have hrem : jsRem (3 * π / 2 - 0 + π) (2 * π) = π / 2 := by
    unfold jsRem
    rw [hfl]
    push_cast
    ring
  have had : angleDifference 0 (3 * π / 2) = -(π / 2) := by
    unfold angleDifference
    rw [hrem, if_neg (by intro hcon; linarith)]
    ring
  refine ⟨?_, ?_, ?_, ?_⟩
  · unfold cellBlend lerpR
    norm_num
    ring
  · unfold mouseBlend lerpR
    ring
  · unfold directionalBlend
    rw [had]
    ring
  · intro k h
    have h2 : π * (1 - 2 * (k : ℝ)) = 0 := by linear_combination h
    rcases mul_eq_zero.mp h2 with hp | hk
    · exact Real.pi_ne_zero hp
    · have h3 : (2 : ℝ) * k = 1 := by linarith
      have h4 : (2 * k : ℤ) = 1 := by exact_mod_cast h3
      omega

end NerveVisuals
